import Mathlib

set_option maxRecDepth 100000

/-!
Verification of the unisender-python-client repository.

The development shallowly embeds the Python sources:
  * `unisender/client.py`   : request-data encoder, allow-listed dynamic dispatch,
                              configuration handling;
  * `unisender/utils.py`    : string concatenation of scalar leaves, SHA-1 based
                              fingerprint, snake_case to camelCase conversion;
  * `unisender/simple_client.py` : validation helpers and the campaign workflow,
                              modelled as explicit state passing over a scripted
                              remote (each HTTP POST consumes the next scripted
                              response and is appended to a call log).

Python values are embedded as the inductive `PyVal`; Python dicts are embedded
as insertion-ordered association lists with the update-in-place semantics of
CPython dicts (`dictInsert`).  CPython set iteration order is unspecified, so
wherever the source iterates over a set the model either fixes insertion order
(where no claim depends on the order) or abstracts the order as an explicit
enumeration parameter (`validateEmailData`).  `hashlib.sha1` is external
library code; it is modelled by a complete SHA-1 implementation over `Nat`
byte lists (FIPS 180, checked below against the standard test vectors).
-/

/-- Embedding of the Python values the library manipulates: `None`, booleans,
integers, strings, `datetime` objects (year, month, day, hour, minute), lists
and (string-keyed, insertion-ordered) dicts. -/
inductive PyVal : Type where
  | vNone : PyVal
  | vBool : Bool → PyVal
  | vInt : Int → PyVal
  | vStr : String → PyVal
  | vDT : Nat → Nat → Nat → Nat → Nat → PyVal
  | vList : List PyVal → PyVal
  | vDict : List (String × PyVal) → PyVal

/-- Python dicts at the top level of the embedding: insertion-ordered
association lists from string keys to values. -/
abbrev Dict := List (String × PyVal)

/-- Keys of a dict, in order. -/
def dictKeys (d : Dict) : List String := d.map Prod.fst

/-- Assignment `d[k] = v` with CPython dict semantics: an existing key keeps
its position and gets the new value, a fresh key is appended at the end. -/
def dictInsert (d : Dict) (k : String) (v : PyVal) : Dict :=
  if k ∈ dictKeys d then d.map (fun p => if p.1 = k then (k, v) else p)
  else d ++ [(k, v)]

/-- Python `d.update(e)`: assign every entry of `e` into `d`, in order. -/
def dictUpdate (d e : Dict) : Dict :=
  e.foldl (fun acc p => dictInsert acc p.1 p.2) d

/-- Python `d.get(k)`: the value at `k`, or `none` when the key is absent. -/
def dictGet (d : Dict) (k : String) : Option PyVal :=
  (d.find? (fun p => p.1 == k)).map Prod.snd

/-- Python `d.setdefault(k, v)`: insert `v` at `k` only when `k` is absent. -/
def dictSetdefault (d : Dict) (k : String) (v : PyVal) : Dict :=
  if k ∈ dictKeys d then d else d ++ [(k, v)]

/-- Bracket key-path formation of `Client._build_request_data`: with an outer
key the child key is `extra_key[key]`, otherwise the key itself. -/
def mkKey : Option String → String → String
  | some ek, key => ek ++ "[" ++ key ++ "]"
  | none, key => key

mutual

/-- Body of the loop of `Client._build_request_data` for a single entry
`(k, val)`: dict values recurse (starting again from the defaults) and merge
via `result.update`, list values are enumerated and treated as dicts keyed by
the decimal index, `None` is dropped, any other value is assigned at `k`. -/
def buildOne (dflt : Dict) (result : Dict) (k : String) : PyVal → Dict
  | .vDict es => dictUpdate result (buildFields dflt dflt (some k) es)
  | .vList xs => dictUpdate result (buildItems dflt dflt k 0 xs)
  | .vNone => result
  | v => dictInsert result k v

/-- Loop of `Client._build_request_data` over the entries of a dict argument. -/
def buildFields (dflt : Dict) (result : Dict) (ek : Option String) :
    List (String × PyVal) → Dict
  | [] => result
  | (key, val) :: rest =>
      buildFields dflt (buildOne dflt result (mkKey ek key) val) ek rest

/-- Loop of `Client._build_request_data` over `dict(enumerate(val))` for a list
value: the same entry processing with stringified zero-based indices as keys. -/
def buildItems (dflt : Dict) (result : Dict) (pre : String) (i : Nat) :
    List PyVal → Dict
  | [] => result
  | x :: xs =>
      buildItems dflt (buildOne dflt result (pre ++ "[" ++ toString i ++ "]") x) pre (i + 1) xs

end

/-- Embedding of `Client._build_request_data(data)`: the flattening loop started
on the default request data (`api_key`, `platform`, `format`). -/
def buildRequestData (dflt : Dict) (data : Dict) : Dict :=
  buildFields dflt dflt none data

/-- Key-path encoder proper (the spec's `KeyPathEncoder.encode`): the same
flattening loop of `Client._build_request_data` started from an empty mapping
instead of the default transport parameters. -/
def encodeData (data : Dict) : Dict :=
  buildFields [] [] none data

mutual

/-- Key-path/value pairs of the non-`None` scalar leaves reachable inside one
value under prefix `k`, in depth-first order: the reference description of what
the encoder emits for that value. -/
def leavesOne (k : String) : PyVal → List (String × PyVal)
  | .vDict es => leavesFields (some k) es
  | .vList xs => leavesItems k 0 xs
  | .vNone => []
  | v => [(k, v)]

/-- Key-path/value pairs of the non-`None` scalar leaves of a dict argument. -/
def leavesFields (ek : Option String) : List (String × PyVal) → List (String × PyVal)
  | [] => []
  | (key, val) :: rest => leavesOne (mkKey ek key) val ++ leavesFields ek rest

/-- Key-path/value pairs of the non-`None` scalar leaves of a list value. -/
def leavesItems (k : String) (i : Nat) : List PyVal → List (String × PyVal)
  | [] => []
  | x :: xs => leavesOne (k ++ "[" ++ toString i ++ "]") x ++ leavesItems k (i + 1) xs

end

/-- Zero-padded two-digit decimal rendering, as in `strftime` fields. -/
def pad2 (n : Nat) : String := if n < 10 then "0" ++ toString n else toString n

/-- Zero-padded four-digit decimal rendering, as in `strftime` year fields. -/
def pad4 (n : Nat) : String :=
  if n < 10 then "000" ++ toString n
  else if n < 100 then "00" ++ toString n
  else if n < 1000 then "0" ++ toString n
  else toString n

mutual

/-- Python `str()` on embedded values: `None`/`True`/`False`, decimal integers,
the string itself, `datetime`\x27s `YYYY-MM-DD HH:MM:SS` form, and the usual
bracketed forms for containers (whose elements render with `repr`). -/
def pyStr : PyVal → String
  | .vNone => "None"
  | .vBool b => if b then "True" else "False"
  | .vInt n => toString n
  | .vStr s => s
  | .vDT y mo d h mi =>
      pad4 y ++ "-" ++ pad2 mo ++ "-" ++ pad2 d ++ " " ++ pad2 h ++ ":" ++ pad2 mi ++ ":00"
  | .vList xs => "[" ++ reprJoinItems xs ++ "]"
  | .vDict es => "\x7b" ++ reprJoinFields es ++ "\x7d"

/-- Python `repr()` on embedded values: like `str()` except strings are
quoted. -/
def pyRepr : PyVal → String
  | .vNone => "None"
  | .vBool b => if b then "True" else "False"
  | .vInt n => toString n
  | .vStr s => "\x27" ++ s ++ "\x27"
  | .vDT y mo d h mi =>
      "datetime.datetime(" ++ toString y ++ ", " ++ toString mo ++ ", " ++ toString d ++
      ", " ++ toString h ++ ", " ++ toString mi ++ ")"
  | .vList xs => "[" ++ reprJoinItems xs ++ "]"
  | .vDict es => "\x7b" ++ reprJoinFields es ++ "\x7d"

/-- Comma-joined `repr` forms of list elements. -/
def reprJoinItems : List PyVal → String
  | [] => ""
  | [x] => pyRepr x
  | x :: y :: xs => pyRepr x ++ ", " ++ reprJoinItems (y :: xs)

/-- Comma-joined `repr` forms of dict entries. -/
def reprJoinFields : List (String × PyVal) → String
  | [] => ""
  | [(k, v)] => "\x27" ++ k ++ "\x27: " ++ pyRepr v
  | (k, v) :: e :: es => "\x27" ++ k ++ "\x27: " ++ pyRepr v ++ ", " ++ reprJoinFields (e :: es)

end

/-- Python truthiness of embedded values. -/
def pyTruthy : PyVal → Bool
  | .vNone => false
  | .vBool b => b
  | .vInt n => n != 0
  | .vStr s => s != ""
  | .vDT _ _ _ _ _ => true
  | .vList xs => !xs.isEmpty
  | .vDict es => !es.isEmpty

mutual

/-- Python `==` on embedded values, structurally.  The workflow only ever
compares a JSON field against a string title, for which structural equality
agrees with CPython `==`. -/
def pyEqB : PyVal → PyVal → Bool
  | .vNone, .vNone => true
  | .vBool a, .vBool b => a == b
  | .vInt a, .vInt b => a == b
  | .vStr a, .vStr b => a == b
  | .vDT y mo d h mi, .vDT y2 mo2 d2 h2 mi2 =>
      y == y2 && mo == mo2 && d == d2 && h == h2 && mi == mi2
  | .vList xs, .vList ys => pyEqItems xs ys
  | .vDict es, .vDict fs => pyEqFields es fs
  | _, _ => false

/-- Elementwise `==` on embedded lists. -/
def pyEqItems : List PyVal → List PyVal → Bool
  | [], [] => true
  | x :: xs, y :: ys => pyEqB x y && pyEqItems xs ys
  | _, _ => false

/-- Entrywise `==` on embedded dict entry lists. -/
def pyEqFields : List (String × PyVal) → List (String × PyVal) → Bool
  | [], [] => true
  | (k, v) :: es, (k2, v2) :: fs => k == k2 && pyEqB v v2 && pyEqFields es fs
  | _, _ => false

end

mutual

/-- Embedding of `utils.get_string_repr`: lists and dicts concatenate the
string representations of their elements (dict keys contribute nothing),
anything else contributes its `str()` form. -/
def getStringRepr : PyVal → String
  | .vList xs => getStringReprItems xs
  | .vDict es => getStringReprFields es
  | v => pyStr v

/-- Concatenation loop of `get_string_repr` over a list. -/
def getStringReprItems : List PyVal → String
  | [] => ""
  | x :: xs => getStringRepr x ++ getStringReprItems xs

/-- Concatenation loop of `get_string_repr` over the values of a dict. -/
def getStringReprFields : List (String × PyVal) → String
  | [] => ""
  | (_, v) :: es => getStringRepr v ++ getStringReprFields es

end

/-- UTF-8 encoding of one code point. -/
def utf8Char (c : Nat) : List Nat :=
  if c < 128 then [c]
  else if c < 2048 then [192 + c / 64, 128 + c % 64]
  else if c < 65536 then [224 + c / 4096, 128 + c / 64 % 64, 128 + c % 64]
  else [240 + c / 262144, 128 + c / 4096 % 64, 128 + c / 64 % 64, 128 + c % 64]

/-- Modelled from the spec: `str.encode(\x27utf-8\x27)`, the UTF-8 byte sequence
of a string. -/
def utf8Bytes (s : String) : List Nat :=
  (s.data.map (fun c => utf8Char c.toNat)).flatten

/-- Left rotation of a 32-bit word. -/
def rotl32 (n x : Nat) : Nat := ((x <<< n) ||| (x >>> (32 - n))) % 2 ^ 32

/-- Big-endian eight-byte rendering of a length in bits. -/
def be8 (n : Nat) : List Nat :=
  [n / 2 ^ 56 % 256, n / 2 ^ 48 % 256, n / 2 ^ 40 % 256, n / 2 ^ 32 % 256,
   n / 2 ^ 24 % 256, n / 2 ^ 16 % 256, n / 2 ^ 8 % 256, n % 256]

/-- SHA-1 message padding: a `0x80` byte, zeros up to 56 mod 64, then the
64-bit big-endian bit length. -/
def sha1Pad (msg : List Nat) : List Nat :=
  msg ++ [128] ++ List.replicate ((119 - msg.length % 64) % 64) 0 ++ be8 (8 * msg.length)

/-- Big-endian packing of bytes into 32-bit words. -/
def toWords : List Nat → List Nat
  | b0 :: b1 :: b2 :: b3 :: rest => (((b0 * 256 + b1) * 256 + b2) * 256 + b3) :: toWords rest
  | _ => []

/-- Message-schedule extension: append `rotl1(w[t-3] xor w[t-8] xor w[t-14] xor
w[t-16])` the given number of times. -/
def sha1Extend : Nat → List Nat → List Nat
  | 0, w => w
  | n + 1, w =>
      let t := rotl32 1 ((w.getD (w.length - 3) 0) ^^^ (w.getD (w.length - 8) 0) ^^^
        (w.getD (w.length - 14) 0) ^^^ (w.getD (w.length - 16) 0))
      sha1Extend n (w ++ [t])

/-- Round function of SHA-1. -/
def sha1F (i b c d : Nat) : Nat :=
  if i < 20 then (b &&& c) ||| ((b ^^^ 4294967295) &&& d)
  else if i < 40 then b ^^^ c ^^^ d
  else if i < 60 then (b &&& c) ||| (b &&& d) ||| (c &&& d)
  else b ^^^ c ^^^ d

/-- Round constants of SHA-1. -/
def sha1K (i : Nat) : Nat :=
  if i < 20 then 1518500249
  else if i < 40 then 1859775393
  else if i < 60 then 2400959708
  else 3395469782

/-- Eighty compression rounds over the extended schedule. -/
def sha1Rounds (i : Nat) : List Nat → Nat × Nat × Nat × Nat × Nat → Nat × Nat × Nat × Nat × Nat
  | [], st => st
  | w :: ws, (a, b, c, d, e) =>
      sha1Rounds (i + 1) ws
        ((rotl32 5 a + sha1F i b c d + e + sha1K i + w) % 2 ^ 32, a, rotl32 30 b, c, d)

/-- Chunk loop of SHA-1: process 64-byte blocks, adding each compression
result into the running state.  The first argument is fuel bounding the number
of blocks; it is instantiated with the padded length, which always suffices. -/
def sha1Chunks : Nat → Nat × Nat × Nat × Nat × Nat → List Nat → Nat × Nat × Nat × Nat × Nat
  | _, st, [] => st
  | 0, st, _ => st
  | fuel + 1, st, bytes =>
      let r := sha1Rounds 0 (sha1Extend 64 (toWords (bytes.take 64))) st
      sha1Chunks fuel
        ((st.1 + r.1) % 2 ^ 32, (st.2.1 + r.2.1) % 2 ^ 32, (st.2.2.1 + r.2.2.1) % 2 ^ 32,
         (st.2.2.2.1 + r.2.2.2.1) % 2 ^ 32, (st.2.2.2.2 + r.2.2.2.2) % 2 ^ 32) (bytes.drop 64)

/-- Modelled from the spec: `hashlib.sha1`, the five 32-bit words of the SHA-1
state after processing the whole padded message. -/
def sha1Words (msg : List Nat) : Nat × Nat × Nat × Nat × Nat :=
  let padded := sha1Pad msg
  sha1Chunks padded.length (1732584193, 4023233417, 2562383102, 271733878, 3285377520) padded

/-- Lowercase hex character of a value below 16. -/
def hexDigitChar (n : Nat) : Char := Char.ofNat (if n < 10 then 48 + n else 87 + n)

/-- Eight lowercase hex characters of a 32-bit word, most significant first. -/
def wordHex (w : Nat) : String :=
  String.mk [hexDigitChar (w / 16 ^ 7 % 16), hexDigitChar (w / 16 ^ 6 % 16),
    hexDigitChar (w / 16 ^ 5 % 16), hexDigitChar (w / 16 ^ 4 % 16),
    hexDigitChar (w / 16 ^ 3 % 16), hexDigitChar (w / 16 ^ 2 % 16),
    hexDigitChar (w / 16 % 16), hexDigitChar (w % 16)]

/-- Modelled from the spec: `hashlib.sha1(...).hexdigest()`, the 40-character
lowercase hex string of the digest. -/
def sha1Hexdigest (msg : List Nat) : String :=
  match sha1Words msg with
  | (h0, h1, h2, h3, h4) => wordHex h0 ++ wordHex h1 ++ wordHex h2 ++ wordHex h3 ++ wordHex h4

/-- Value of one lowercase hex character. -/
def hexVal (c : Char) : Nat := if c.toNat ≤ 57 then c.toNat - 48 else c.toNat - 87

/-- Python `int(s, 16)` on a lowercase hex string. -/
def natOfHexStr (s : String) : Nat := s.data.foldl (fun a c => a * 16 + hexVal c) 0

/-- SHA-1 digest read directly as a big-endian unsigned integer, the
interpretation the specification describes. -/
def sha1Nat (msg : List Nat) : Nat :=
  match sha1Words msg with
  | (h0, h1, h2, h3, h4) =>
      (((h0 * 2 ^ 32 + h1) * 2 ^ 32 + h2) * 2 ^ 32 + h3) * 2 ^ 32 + h4

/-- Embedding of `utils.get_unique_hash`: `int(sha1(utf8(get_string_repr
obj)).hexdigest(), 16) % 10 ** 10`. -/
def getUniqueHash (obj : PyVal) : Nat :=
  natOfHexStr (sha1Hexdigest (utf8Bytes (getStringRepr obj))) % 10 ^ 10

/-- Python `str.capitalize()`: first character upper-cased, the rest
lower-cased. -/
def pyCapitalize (w : String) : String :=
  match w.data with
  | [] => ""
  | c :: cs => String.mk (c.toUpper :: cs.map Char.toLower)

/-- Splitting of a character list on underscores, as Python `s.split(\x27_\x27)`
(kernel-reducible replacement for `String.splitOn`). -/
def splitUnderscore : List Char → List Char → List String
  | [], cur => [String.mk cur.reverse]
  | c :: cs, cur =>
      if c = '_' then String.mk cur.reverse :: splitUnderscore cs []
      else splitUnderscore cs (c :: cur)

/-- Concatenation of a list of strings. -/
def strConcat : List String → String
  | [] => ""
  | s :: ss => s ++ strConcat ss

/-- Embedding of `utils.to_camel_case`: split on underscores, keep the first
part, capitalize the rest (an empty part becomes an underscore). -/
def toCamelCase (s : String) : String :=
  match splitUnderscore s.data [] with
  | [] => ""
  | p :: parts => p ++ strConcat (parts.map (fun w => if w = "" then "_" else pyCapitalize w))


/-- Embedding of `Client._api_methods`: the allow-list of remote operation
names. -/
def apiMethods : List String :=
  ["get_lists", "create_list", "update_list", "delete_list",
   "subscribe", "exclude", "unsubscribe",
   "import_contacts", "export_contacts",
   "get_total_contacts_count", "get_contact_count", "get_contact",
   "get_fields", "create_field", "update_field", "delete_field",
   "get_tags", "delete_tag",
   "create_email_message", "update_email_message", "delete_message",
   "send_email", "send_test_email", "check_email", "update_opt_in_email",
   "get_messages", "get_message", "list_messages", "get_checked_email",
   "create_campaign", "cancel_campaign",
   "create_sms_message", "send_sms", "check_sms", "get_actual_message_version",
   "get_web_version",
   "create_email_template", "update_email_template", "delete_template",
   "get_template", "get_templates", "list_templates",
   "get_campaign_delivery_stats", "get_campaign_common_stats", "get_visited_links",
   "get_campaigns", "get_campaign_status",
   "validate_sender", "register", "check_user_exists", "get_user_info", "get_users",
   "transfer_money", "get_available_tariffs", "change_tariff", "set_sender_domain"]

/-- Outcome of a Python attribute access on a `Client` instance for a name with
no ordinary attribute: either the bound remote-call closure, or the value
`None` (`Client.__getattr__` has no `else` branch and therefore returns `None`
instead of raising `AttributeError`). -/
inductive AttrLookup : Type where
  | bound : String → AttrLookup
  | noneValue : AttrLookup
deriving DecidableEq

/-- Embedding of `Client.__getattr__`: names on the allow-list produce the
bound `_api_request` closure; any other name falls off the end of the function
body, so the attribute access evaluates to `None` (no exception is raised). -/
def clientGetattr (name : String) : AttrLookup :=
  if name ∈ apiMethods then .bound name else .noneValue

/-- Class attribute `Client.DEFAULT_CONF`: a single dict object stored on the
class. -/
def defaultConfInit : Dict :=
  [("base_url", .vStr "https://api.unisender.com"), ("lang", .vStr "en"),
   ("format", .vStr "json"), ("api_key", .vNone), ("platform", .vNone)]

/-- Heap cell holding the one `Client.DEFAULT_CONF` dict object shared by the
whole process. -/
structure ConfHeap : Type where
  defaultConf : Dict

/-- Embedding of `Client.__init__`: `self._config = self.DEFAULT_CONF` binds
the instance configuration to the class-level dict object itself (no copy), so
the subsequent `api_key`/`platform` assignments and `update(kwargs)` mutate
the shared object.  The function returns the heap after construction; every
instance's `_config` denotes the same heap cell. -/
def clientInit (h : ConfHeap) (api_key platform : PyVal) (kwargs : Dict) : ConfHeap :=
  ⟨dictUpdate (dictInsert (dictInsert h.defaultConf "api_key" api_key) "platform" platform)
    kwargs⟩

/-- Configuration observed by any constructed client: the shared dict object. -/
def clientConfig (h : ConfHeap) : Dict := h.defaultConf

/-- Transport configuration threaded through the workflow model: the values of
`_get_default_request_data` plus the URL components of `_get_request_url`. -/
structure Conf : Type where
  api_key : PyVal
  platform : PyVal
  format : PyVal
  base_url : String
  lang : String

/-- Embedding of `Client._get_default_request_data`. -/
def defaultRequestData (c : Conf) : Dict :=
  [("api_key", c.api_key), ("platform", c.platform), ("format", c.format)]

/-- Embedding of `Client._get_request_url`. -/
def requestUrl (c : Conf) (method : String) : String :=
  c.base_url ++ "/" ++ c.lang ++ "/api/" ++ toCamelCase method

/-- Remote response as the workflow consumes it: HTTP status code and the
parsed JSON body (a dict). -/
structure Response : Type where
  status_code : Nat
  body : Dict

/-- State of the scripted remote: the responses the remote will return, in
order, and the log of requests performed (method name and built POST data). -/
structure ApiState : Type where
  pending : List Response
  calls : List (String × Dict)

/-- Error strings of `SimpleClient.ERROR_MESSAGES`. -/
def emailDataErrorMsg : String :=
  "UniSender client error: Please fill correct \"email_data\" fields"

/-- Message for missing required email fields, applied to the joined names. -/
def emailMissingFieldsMsg (fields : String) : String :=
  "UniSender client error: Please fill \"email_data\" required field(s): " ++ fields

/-- Message for an empty recipient list. -/
def emailRecipientsEmptyMsg : String :=
  "UniSender client error: The recipient list should not be empty!"

/-- Message for a failed API request, applied to status, URL and details. -/
def requestErrorMsg (status : Nat) (url details : String) : String :=
  "UniSender client error: Request failed [status: " ++ toString status ++ "] [URL: " ++
    url ++ "] Details: " ++ details

/-- Embedding of `SimpleClient._validate_response`: a 200 response whose body
carries a non-`None` `error` field raises with the error rendered by `str`, a
non-200 response raises with details `HTTP error`, anything else passes. -/
def validateResponse (c : Conf) (method : String) (r : Response) : Option String :=
  if r.status_code = 200 then
    match dictGet r.body "error" with
    | some .vNone => none
    | some e => some (requestErrorMsg r.status_code (requestUrl c method) (pyStr e))
    | none => none
  else some (requestErrorMsg r.status_code (requestUrl c method) "HTTP error")

/-- Embedding of `Client._api_request` as performed by a `SimpleClient` (whose
`after_request` hook validates every response): build the request data, pop the
next scripted response, log the call, then let the hook raise on a failed
response.  An exhausted script is a modelling artifact reported as an error. -/
def apiRequest (c : Conf) (method : String) (kwargs : Dict) (s : ApiState) :
    Except String Response × ApiState :=
  match s.pending with
  | [] => (.error "model: response script exhausted", s)
  | r :: rest =>
      let s2 : ApiState := ⟨rest, s.calls ++ [(method, buildRequestData (defaultRequestData c) kwargs)]⟩
      match validateResponse c method r with
      | some msg => (.error msg, s2)
      | none => (.ok r, s2)

/-- Python subscription `obj[k]` for string keys: dict lookup with `KeyError`,
`TypeError` on non-dicts. -/
def pyIndex (obj : PyVal) (k : String) : Except String PyVal :=
  match obj with
  | .vDict es =>
      match dictGet es k with
      | some v => .ok v
      | none => .error ("KeyError: " ++ k)
  | _ => .error ("TypeError: value is not subscriptable with " ++ k)

/-- Lookup `response.json()[k]`. -/
def jsonAt (r : Response) (k : String) : Except String PyVal :=
  match dictGet r.body k with
  | some v => .ok v
  | none => .error ("KeyError: " ++ k)

/-- Lookup `response.json()[k1][k2]`. -/
def jsonAt2 (r : Response) (k1 k2 : String) : Except String PyVal :=
  match jsonAt r k1 with
  | .error e => .error e
  | .ok v => pyIndex v k2

/-- Python iteration over a value: lists yield their elements, strings their
characters, dicts their keys; anything else raises `TypeError`. -/
def pyIterate (v : PyVal) : Except String (List PyVal) :=
  match v with
  | .vList xs => .ok xs
  | .vStr s => .ok (s.data.map (fun ch => .vStr (String.mk [ch])))
  | .vDict es => .ok (es.map (fun p => .vStr p.1))
  | _ => .error "TypeError: value is not iterable"

/-- Abort-on-first-error map over a list, as a Python `for` loop raising. -/
def mapExcept (f : PyVal → Except String PyVal) : List PyVal → Except String (List PyVal)
  | [] => .ok []
  | x :: xs =>
      match f x with
      | .error e => .error e
      | .ok y =>
          match mapExcept f xs with
          | .error e => .error e
          | .ok ys => .ok (y :: ys)

/-- Deduplication keeping first occurrences: the model of building a CPython
set by successive insertion, enumerated in insertion order (the true CPython
iteration order is unspecified; no claim below depends on it). -/
def dedupKeepAux (seen : List String) : List String → List String
  | [] => []
  | x :: xs => if x ∈ seen then dedupKeepAux seen xs else x :: dedupKeepAux (x :: seen) xs

/-- Insertion-ordered set of a list of strings. -/
def dedupKeep (l : List String) : List String := dedupKeepAux [] l

/-- Join of strings with a separator, as Python `sep.join`. -/
def joinSep (sep : String) : List String → String
  | [] => ""
  | [x] => x
  | x :: y :: xs => x ++ sep ++ joinSep sep (y :: xs)

/-- Embedding of `SimpleClient.REQUIRED_EMAIL_ARGS`. -/
def requiredEmailArgs (t : String) : List String :=
  if t = "html" then ["sender_name", "sender_email", "body", "subject"]
  else ["sender_name", "sender_email"]

/-- Embedding of `SimpleClient.EMAIL_SYSTEM_FIELDS` (a set literal, kept in
source order; only membership is ever used). -/
def emailSystemFields : List String :=
  ["delete", "tags", "email", "email_status", "email_availability", "email_list_ids",
   "email_subscribe_times", "email_unsubscribed_list_ids", "email_excluded_list_ids"]

/-- Embedding of `SimpleClient._validate_recipients`: an empty list raises. -/
def validateRecipients (recipients : List PyVal) : Option String :=
  if recipients.isEmpty then some emailRecipientsEmptyMsg else none

/-- Required-field check of `SimpleClient._validate_email_data` for one email
type: when the required names are not all present, raise naming the missing
ones, comma-joined in the iteration order of the CPython set difference
`set(required) - set(keys)` — that order is unspecified (hash-dependent), so it
is abstracted as the explicit enumeration `setOrder`, assumed to permute. -/
def validateRequired (setOrder : List String → List String) (etype : String)
    (ks : List String) : Option String :=
  let required := requiredEmailArgs etype
  if required.all (fun f => ks.contains f) then none
  else some (emailMissingFieldsMsg
    (joinSep ", " (setOrder (required.filter (fun f => !ks.contains f)))))

/-- Embedding of `SimpleClient._validate_email_data`: classify the email as
template (a `template_id`/`system_template_id` key) or html (a
`text_body`/`body` key), raise on neither, then check the variant's required
fields. -/
def validateEmailData (setOrder : List String → List String) (data : Dict) : Option String :=
  let ks := dictKeys data
  let is_template := ["template_id", "system_template_id"].any (fun e => ks.contains e)
  let is_html := ["text_body", "body"].any (fun e => ks.contains e)
  if is_template then validateRequired setOrder "template" ks
  else if is_html then validateRequired setOrder "html" ks
  else some emailDataErrorMsg

/-- Scan loop of `SimpleClient.find_list_id`: remember the id of every element
whose `title` equals the wanted title (the last match wins). -/
def scanLists (title : String) (acc : Option PyVal) : List PyVal → Except String (Option PyVal)
  | [] => .ok acc
  | elem :: rest =>
      match pyIndex elem "title" with
      | .error e => .error e
      | .ok t =>
          if pyEqB t (.vStr title) then
            match pyIndex elem "id" with
            | .error e => .error e
            | .ok i => scanLists title (some i) rest
          else scanLists title acc rest

/-- Embedding of `SimpleClient.find_list_id`: one `get_lists` call, then the
scan over `response.json()[\x27result\x27]`. -/
def findListId (c : Conf) (title : String) (s : ApiState) :
    Except String (Option PyVal) × ApiState :=
  match apiRequest c "get_lists" [] s with
  | (.error e, s1) => (.error e, s1)
  | (.ok r, s1) =>
      match jsonAt r "result" with
      | .error e => (.error e, s1)
      | .ok res =>
          match pyIterate res with
          | .error e => (.error e, s1)
          | .ok items => (scanLists title none items, s1)

/-- Creation loop of `SimpleClient.create_fields`: one `create_field` call per
missing name. -/
def createFieldLoop (c : Conf) (ftype : String) : List String → ApiState →
    Except String Unit × ApiState
  | [], s => (.ok (), s)
  | fn :: rest, s =>
      match apiRequest c "create_field" [("name", .vStr fn), ("type", .vStr ftype)] s with
      | (.error e, s2) => (.error e, s2)
      | (.ok _, s2) => createFieldLoop c ftype rest s2

/-- Embedding of `SimpleClient.create_fields`: fetch existing remote field
names, seed them with the built-in system field names, and create exactly the
missing ones. -/
def createFields (c : Conf) (field_names : List String) (ftype : String) (s : ApiState) :
    Except String Unit × ApiState :=
  match apiRequest c "get_fields" [] s with
  | (.error e, s1) => (.error e, s1)
  | (.ok r, s1) =>
      match jsonAt r "result" with
      | .error e => (.error e, s1)
      | .ok res =>
          match pyIterate res with
          | .error e => (.error e, s1)
          | .ok items =>
              match mapExcept (fun it => pyIndex it "name") items with
              | .error e => (.error e, s1)
              | .ok names =>
                  let existing : List PyVal := emailSystemFields.map .vStr ++ names
                  let missing := (dedupKeep field_names).filter
                    (fun fn => !(existing.any (fun ex => pyEqB ex (.vStr fn))))
                  createFieldLoop c ftype missing s1

/-- Dict entries of a recipient, raising when the value is not a dict. -/
def pyDictEntries (v : PyVal) : Except String Dict :=
  match v with
  | .vDict es => .ok es
  | _ => .error "AttributeError: value is not a dict"

/-- Row construction of `_create_contacts_data`: `str(contact[key])` for every
field name, raising `KeyError` on a missing field. -/
def contactRow (contact : Dict) : List String → Except String (List PyVal)
  | [] => .ok []
  | k :: ks =>
      match dictGet contact k with
      | none => .error ("KeyError: " ++ k)
      | some v =>
          match contactRow contact ks with
          | .error e => .error e
          | .ok row => .ok (.vStr (pyStr v) :: row)

/-- Embedding of `_create_contacts_data`: copy each contact, set
`email_status` to `active` and `email_list_ids` to the comma-joined target
ids, then emit one row per contact ordered by the field names. -/
def contactsData (fns : List String) (listIdsJoined : String) :
    List PyVal → Except String (List PyVal)
  | [] => .ok []
  | contact :: rest =>
      match pyDictEntries contact with
      | .error e => .error e
      | .ok es =>
          let es2 := dictInsert (dictInsert es "email_status" (.vStr "active"))
            "email_list_ids" (.vStr listIdsJoined)
          match contactRow es2 fns with
          | .error e => .error e
          | .ok row =>
              match contactsData fns listIdsJoined rest with
              | .error e => .error e
              | .ok rows => .ok (.vList row :: rows)

/-- Embedding of `SimpleClient.import_contacts`: field names are the first
recipient's keys plus `email_status` and `email_list_ids` (a set, modelled in
insertion order), rows are built for all recipients, missing remote fields are
created, then one bulk `import_contacts` request is issued with
`overwrite_lists=1`. -/
def importContacts (c : Conf) (recipients : List PyVal) (email_list_ids : List PyVal)
    (s : ApiState) : Except String Response × ApiState :=
  match recipients with
  | [] => (.error "IndexError: list index out of range", s)
  | r0 :: _ =>
      match pyDictEntries r0 with
      | .error e => (.error e, s)
      | .ok es0 =>
          let field_names := dedupKeep (dictKeys es0 ++ ["email_status", "email_list_ids"])
          let joined := joinSep "," (email_list_ids.map pyStr)
          match contactsData field_names joined recipients with
          | .error e => (.error e, s)
          | .ok rows =>
              match createFields c field_names "string" s with
              | (.error e, s1) => (.error e, s1)
              | (.ok _, s1) =>
                  apiRequest c "import_contacts"
                    [("field_names", .vList (field_names.map .vStr)),
                     ("data", .vList rows), ("overwrite_lists", .vInt 1)] s1

/-- Category serialization of `SimpleClient.create_email_message`:
`\x27,\x27.join(str(el) for el in categories)`. -/
def joinCategories (v : PyVal) : Except String String :=
  match v with
  | .vList xs => .ok (joinSep "," (xs.map pyStr))
  | .vStr s => .ok (joinSep "," (s.data.map (fun ch => String.mk [ch])))
  | .vDict es => .ok (joinSep "," (es.map Prod.fst))
  | _ => .error "TypeError: value is not iterable"

/-- Embedding of `SimpleClient.create_email_message`: a non-`None`
`categories` value is replaced by its comma-joined form, then the
`create_email_message` request is issued. -/
def createEmailMessage (c : Conf) (data : Dict) (s : ApiState) :
    Except String Response × ApiState :=
  match dictGet data "categories" with
  | none => apiRequest c "create_email_message" data s
  | some .vNone => apiRequest c "create_email_message" data s
  | some v =>
      match joinCategories v with
      | .error e => (.error e, s)
      | .ok joined =>
          apiRequest c "create_email_message" (dictInsert data "categories" (.vStr joined)) s

/-- Python `start_time.strftime("%Y-%m-%d %H:%M")`. -/
def strfTime (y mo d h mi : Nat) : String :=
  pad4 y ++ "-" ++ pad2 mo ++ "-" ++ pad2 d ++ " " ++ pad2 h ++ ":" ++ pad2 mi

/-- Start-time normalization of `SimpleClient.create_email_campaign`: a truthy
`start_time` value is replaced by its `YYYY-MM-DD HH:MM` string form
(`strftime` raises on non-datetime values). -/
def startTimeAdjust (d : Dict) : Except String Dict :=
  match dictGet d "start_time" with
  | none => .ok d
  | some v =>
      if pyTruthy v then
        match v with
        | .vDT y mo dy h mi => .ok (dictInsert d "start_time" (.vStr (strfTime y mo dy h mi)))
        | _ => .error "AttributeError: value has no strftime"
      else .ok d

/-- Embedding of `SimpleClient.create_email_campaign`: validate recipients and
email data, resolve the mailing list via the fingerprint-derived title
(lookup first, create when absent), store `list_id` into the email data,
bulk-import the contacts, create the message, store `message_id` and the normalized
`start_time` into the campaign data, create the campaign and return the new
campaign id together with the final (mutated) `email_data` and
`campaign_data` dicts. -/
def createEmailCampaign (c : Conf) (setOrder : List String → List String)
    (recipients : List PyVal) (email_data : Dict) (campaign_data : Option Dict)
    (s : ApiState) : Except String (PyVal × Dict × Dict) × ApiState :=
  match validateRecipients recipients with
  | some e => (.error e, s)
  | none =>
  match validateEmailData setOrder email_data with
  | some e => (.error e, s)
  | none =>
  match findListId c ("mailing_list_" ++ toString (getUniqueHash (.vList recipients))) s with
  | (.error e, s1) => (.error e, s1)
  | (.ok found, s1) =>
  match (match found with
         | some lid => (Except.ok lid, s1)
         | none =>
             match apiRequest c "create_list"
               [("title", .vStr ("mailing_list_" ++
                 toString (getUniqueHash (.vList recipients))))] s1 with
             | (.error e, s2) => (Except.error e, s2)
             | (.ok r, s2) => (jsonAt2 r "result" "id", s2)) with
  | (.error e, s2) => (.error e, s2)
  | (.ok list_id, s2) =>
  match importContacts c recipients [list_id] s2 with
  | (.error e, s3) => (.error e, s3)
  | (.ok _, s3) =>
  match createEmailMessage c (dictInsert email_data "list_id" list_id) s3 with
  | (.error e, s4) => (.error e, s4)
  | (.ok resp, s4) =>
  match jsonAt2 resp "result" "message_id" with
  | .error e => (.error e, s4)
  | .ok mid =>
  match startTimeAdjust (dictInsert (campaign_data.getD []) "message_id" mid) with
  | .error e => (.error e, s4)
  | .ok cd1 =>
  match apiRequest c "create_campaign" cd1 s4 with
  | (.error e, s5) => (.error e, s5)
  | (.ok r5, s5) =>
  match jsonAt2 r5 "result" "campaign_id" with
  | .error e => (.error e, s5)
  | .ok cid => (.ok (cid, dictInsert email_data "list_id" list_id, cd1), s5)

/-- Python tuple unpacking `key, val = s` of a string: succeeds exactly when
the string has two characters (each bound as a one-character string),
otherwise raises `ValueError`. -/
def unpackPair (str : String) : Except String (String × String) :=
  match str.data with
  | [a, b] => .ok (String.mk [a], String.mk [b])
  | [] => .error "ValueError: not enough values to unpack (expected 2, got 0)"
  | [_] => .error "ValueError: not enough values to unpack (expected 2, got 1)"
  | _ => .error "ValueError: too many values to unpack (expected 2)"

/-- Default-application loop of `create_many_email_campaigns`, as written in
the source: `for key, val in defaults.keys(): campaign[field].setdefault(key,
val)` iterates over the KEYS of the defaults dict and unpacks each key string
into the `(key, val)` pair, so any key whose length differs from two raises
`ValueError` and a two-character key is split into two one-character
strings. -/
def applyDefaultsKeysBug (dflts : List (String × PyVal)) (campaign : PyVal)
    (field : String) : Except String PyVal :=
  match dflts with
  | [] => .ok campaign
  | (k, _) :: rest =>
      match unpackPair k with
      | .error e => .error e
      | .ok kv =>
          match campaign with
          | .vDict ces =>
              match dictGet ces field with
              | none => .error ("KeyError: " ++ field)
              | some (.vDict target) =>
                  applyDefaultsKeysBug rest
                    (.vDict (dictInsert ces field
                      (.vDict (dictSetdefault target kv.1 (.vStr kv.2))))) field
              | some _ => .error "AttributeError: value has no setdefault"
          | _ => .error ("TypeError: campaign is not subscriptable with " ++ field)

/-- Conversion of a `campaign_data` argument value: `None` or a dict. -/
def asCampaignData (v : PyVal) : Except String (Option Dict) :=
  match v with
  | .vNone => .ok none
  | .vDict es => .ok (some es)
  | _ => .error "TypeError: campaign_data is not a dict"

/-- Conversion of an `email_data` argument value to a dict. -/
def asEmailData (v : PyVal) : Except String Dict :=
  match v with
  | .vDict es => .ok es
  | _ => .error "AttributeError: email_data is not a dict"

/-- Loop of `SimpleClient.create_many_email_campaigns`: apply the (buggy)
default-parameter merging outside the `try`, then inside the `try` read the
item's `email_data`/`campaign_data` and run the single-campaign workflow; a
failure inside the `try` is re-raised annotated with the item's index and
stops the loop, a success appends the campaign id. -/
def createManyLoop (c : Conf) (setOrder : List String → List String)
    (recipients : List PyVal) (dE dC : Option Dict) (i : Nat) (acc : List PyVal) :
    List PyVal → ApiState → Except String (List PyVal) × ApiState
  | [], s => (.ok acc, s)
  | campaign :: rest, s =>
      match (match dE with
             | none => Except.ok campaign
             | some dd => applyDefaultsKeysBug dd campaign "email_data") with
      | .error e => (.error e, s)
      | .ok campaign1 =>
      match (match dC with
             | none => Except.ok campaign1
             | some dd => applyDefaultsKeysBug dd campaign1 "campaign_data") with
      | .error e => (.error e, s)
      | .ok campaign2 =>
      match (match pyIndex campaign2 "email_data" with
             | .error e => (Except.error e, s)
             | .ok edv =>
               match asEmailData edv with
               | .error e => (Except.error e, s)
               | .ok ed =>
                 match pyIndex campaign2 "campaign_data" with
                 | .error e => (Except.error e, s)
                 | .ok cdv =>
                   match asCampaignData cdv with
                   | .error e => (Except.error e, s)
                   | .ok cdo =>
                     match createEmailCampaign c setOrder recipients ed cdo s with
                     | (.error e, s2) => (Except.error e, s2)
                     | (.ok res, s2) => (Except.ok res.1, s2)) with
      | (.error e, s2) => (.error (e ++ ". Campaign number: " ++ toString i), s2)
      | (.ok cid, s2) => createManyLoop c setOrder recipients dE dC (i + 1) (acc ++ [cid]) rest s2

/-- Embedding of `SimpleClient.create_many_email_campaigns`. -/
def createManyEmailCampaigns (c : Conf) (setOrder : List String → List String)
    (campaigns recipients : List PyVal) (dE dC : Option Dict) (s : ApiState) :
    Except String (List PyVal) × ApiState :=
  createManyLoop c setOrder recipients dE dC 0 [] campaigns s

mutual

/-- Size of one embedded value, used as the induction measure below. -/
def sizeOne : PyVal → Nat
  | .vDict es => 1 + sizeFields es
  | .vList xs => 1 + sizeItems xs
  | _ => 1

/-- Size of dict entries. -/
def sizeFields : List (String × PyVal) → Nat
  | [] => 0
  | (_, v) :: rest => sizeOne v + sizeFields rest

/-- Size of list items. -/
def sizeItems : List PyVal → Nat
  | [] => 0
  | x :: xs => sizeOne x + sizeItems xs

end

/-- Configuration used by the concrete workflow runs below. -/
def wfConf : Conf := ⟨.vStr "KEY", .vStr "PLAT", .vStr "json", "https://api.unisender.com", "en"⟩

/-- Recipient list used by the concrete workflow runs below; its fingerprint
is 4931128932, so the derived title is `mailing_list_4931128932`. -/
def wfRecipients : List PyVal := [.vDict [("email", .vStr "a@x.com")]]

/-- Valid html email data used by the concrete workflow runs below. -/
def wfEmailData : Dict :=
  [("subject", .vStr "S"), ("sender_name", .vStr "N"),
   ("sender_email", .vStr "E"), ("body", .vStr "B")]

/-- Successful (status 200, no error field) response with the given `result`
payload. -/
def respOk (result : PyVal) : Response := ⟨200, [("result", result)]⟩

/-- Script for steps 1 to 4 of a run in which the mailing list does not yet
exist: empty get_lists result, created list id 101, no remote custom fields,
an import acknowledgement, and message id 55. -/
def wfScriptPrefix : List Response :=
  [respOk (.vList []), respOk (.vDict [("id", .vInt 101)]), respOk (.vList []),
   respOk (.vList []), respOk (.vDict [("message_id", .vInt 55)])]

/-- Full successful script for a run creating the list (campaign id 777). -/
def wfScriptNoList : List Response :=
  wfScriptPrefix ++ [respOk (.vDict [("campaign_id", .vInt 777)])]

/-- Script for a run in which the mailing list already exists under the
fingerprint-derived title with id 202 (campaign id 888). -/
def wfScriptListExists : List Response :=
  [respOk (.vList [.vDict [("title", .vStr "mailing_list_4931128932"), ("id", .vInt 202)]]),
   respOk (.vList []), respOk (.vList []), respOk (.vDict [("message_id", .vInt 55)]),
   respOk (.vDict [("campaign_id", .vInt 888)])]

/-- Batch item with valid html email data and no campaign data. -/
def wfGoodItem : PyVal := .vDict [("email_data", .vDict wfEmailData), ("campaign_data", .vNone)]

/-- Batch item whose email data is neither template nor html (fails step-4
validation before any remote call). -/
def wfBadItem : PyVal := .vDict [("email_data", .vDict [("foo", .vStr "x")]), ("campaign_data", .vNone)]

/-- Html email data missing only `subject`. -/
def wfHtmlMissingSubject : Dict :=
  [("body", .vStr "b"), ("sender_name", .vStr "n"), ("sender_email", .vStr "e")]

/-- Byte-lexicographic comparison of character lists (kernel-computable
string ordering used to state sortedness). -/
def charListLeB : List Char → List Char → Bool
  | [], _ => true
  | _ :: _, [] => false
  | a :: as, b :: bs =>
      if a.toNat < b.toNat then true
      else if b.toNat < a.toNat then false
      else charListLeB as bs

/-- Byte-lexicographic string comparison. -/
def strLeB (a b : String) : Bool := charListLeB a.data b.data

theorem sha1_test_vector_abc :
    sha1Hexdigest (utf8Bytes "abc") = "a9993e364706816aba3e25717850c26c9cd0d89d" := rfl

theorem sha1_test_vector_empty :
    sha1Hexdigest (utf8Bytes "") = "da39a3ee5e6b4b0d3255bfef95601890afd80709" := rfl

theorem toCamelCase_example : toCamelCase "get_total_contacts_count" = "getTotalContactsCount" := rfl

theorem dictKeys_append (d e : Dict) : dictKeys (d ++ e) = dictKeys d ++ dictKeys e :=
  List.map_append _ d e

theorem dictKeys_cons (k : String) (v : PyVal) (rest : Dict) :
    dictKeys ((k, v) :: rest) = k :: dictKeys rest := rfl

theorem dictInsert_fresh (d : Dict) (k : String) (v : PyVal) (h : k ∉ dictKeys d) :
    dictInsert d k v = d ++ [(k, v)] := by
  simp [dictInsert, h]

theorem dictUpdate_append (e : List (String × PyVal)) :
    ∀ d : Dict, (dictKeys d ++ dictKeys e).Nodup → dictUpdate d e = d ++ e := by
  induction e with
  | nil => intro d _; simp [dictUpdate]
  | cons p rest ih =>
      obtain ⟨k, v⟩ := p
      intro d hnd
      rw [dictKeys_cons] at hnd
      have hk : k ∉ dictKeys d := by
        rw [List.nodup_append] at hnd
        intro hm
        exact hnd.2.2 hm (by simp)
      have step : dictUpdate d ((k, v) :: rest) = dictUpdate (d ++ [(k, v)]) rest := by
        simp [dictUpdate, dictInsert_fresh d k v hk]
      rw [step, ih (d ++ [(k, v)]) (by simpa [dictKeys_append] using hnd)]
      simp

theorem nodup_append_left_of_assoc {α : Type} (a b c : List α)
    (h : (a ++ (b ++ c)).Nodup) : (a ++ b).Nodup := by
  rw [← List.append_assoc] at h
  exact h.sublist (List.sublist_append_left _ _)

theorem sizeOne_pos' (v : PyVal) : 1 ≤ sizeOne v := by
  cases v <;> simp [sizeOne]

theorem build_eq_leaves :
    ∀ n : Nat,
      (∀ v k result, sizeOne v ≤ n → (dictKeys (result ++ leavesOne k v)).Nodup →
        buildOne [] result k v = result ++ leavesOne k v)
      ∧ (∀ es ek result, sizeFields es ≤ n → (dictKeys (result ++ leavesFields ek es)).Nodup →
        buildFields [] result ek es = result ++ leavesFields ek es)
      ∧ (∀ xs pre i result, sizeItems xs ≤ n → (dictKeys (result ++ leavesItems pre i xs)).Nodup →
        buildItems [] result pre i xs = result ++ leavesItems pre i xs) := by
  intro n
  induction n using Nat.strong_induction_on with
  | _ n ih =>
    have hone : ∀ v k result, sizeOne v ≤ n → (dictKeys (result ++ leavesOne k v)).Nodup →
        buildOne [] result k v = result ++ leavesOne k v := by
      intro v k result hs hnd
      have hscalar : ∀ v2 : PyVal, leavesOne k v2 = [(k, v2)] →
          buildOne [] result k v2 = dictInsert result k v2 →
          (dictKeys (result ++ leavesOne k v2)).Nodup →
          buildOne [] result k v2 = result ++ leavesOne k v2 := by
        intro v2 hl hb hnd2
        rw [hl] at hnd2 ⊢
        have hk : k ∉ dictKeys result := by
          rw [dictKeys_append, List.nodup_append] at hnd2
          intro hm
          exact hnd2.2.2 hm (by simp [dictKeys])
        rw [hb, dictInsert_fresh result k v2 hk]
      cases v with
      | vNone =>
          rw [show buildOne [] result k .vNone = result from rfl,
            show leavesOne k .vNone = [] from rfl]
          simp
      | vBool b => exact hscalar (.vBool b) rfl rfl hnd
      | vInt m => exact hscalar (.vInt m) rfl rfl hnd
      | vStr str => exact hscalar (.vStr str) rfl rfl hnd
      | vDT a b c d e => exact hscalar (.vDT a b c d e) rfl rfl hnd
      | vDict es =>
          have hsz : sizeOne (.vDict es) = 1 + sizeFields es := rfl
          have hlt : sizeFields es < n := by omega
          have hndL : (dictKeys (leavesFields (some k) es)).Nodup := by
            rw [show leavesOne k (.vDict es) = leavesFields (some k) es from rfl,
              dictKeys_append] at hnd
            exact hnd.of_append_right
          have hrec := (ih (sizeFields es) hlt).2.1 es (some k) [] (le_refl _)
            (by simpa using hndL)
          rw [show buildOne [] result k (.vDict es) =
            dictUpdate result (buildFields [] [] (some k) es) from rfl, hrec]
          rw [List.nil_append]
          rw [show leavesOne k (.vDict es) = leavesFields (some k) es from rfl] at hnd ⊢
          rw [dictKeys_append] at hnd
          exact dictUpdate_append _ result hnd
      | vList xs =>
          have hsz : sizeOne (.vList xs) = 1 + sizeItems xs := rfl
          have hlt : sizeItems xs < n := by omega
          have hndL : (dictKeys (leavesItems k 0 xs)).Nodup := by
            rw [show leavesOne k (.vList xs) = leavesItems k 0 xs from rfl,
              dictKeys_append] at hnd
            exact hnd.of_append_right
          have hrec := (ih (sizeItems xs) hlt).2.2 xs k 0 [] (le_refl _)
            (by simpa using hndL)
          rw [show buildOne [] result k (.vList xs) =
            dictUpdate result (buildItems [] [] k 0 xs) from rfl, hrec]
          rw [List.nil_append]
          rw [show leavesOne k (.vList xs) = leavesItems k 0 xs from rfl] at hnd ⊢
          rw [dictKeys_append] at hnd
          exact dictUpdate_append _ result hnd
    refine ⟨hone, ?_, ?_⟩
    · intro es
      induction es with
      | nil =>
          intro ek result _ _
          rw [show buildFields [] result ek [] = result from rfl,
            show leavesFields ek ([] : List (String × PyVal)) = [] from rfl]
          simp
      | cons p rest ih2 =>
          obtain ⟨key, val⟩ := p
          intro ek result hs hnd
          have hsz : sizeFields ((key, val) :: rest) = sizeOne val + sizeFields rest := rfl
          have h1 : sizeOne val ≤ n := by
            have := sizeOne_pos' val
            omega
          have h2 : sizeFields rest ≤ n := by
            have := sizeOne_pos' val
            omega
          rw [show leavesFields ek ((key, val) :: rest) =
            leavesOne (mkKey ek key) val ++ leavesFields ek rest from rfl] at hnd ⊢
          have hnd' : (dictKeys (result ++ leavesOne (mkKey ek key) val)).Nodup := by
            rw [dictKeys_append]
            rw [dictKeys_append, dictKeys_append] at hnd
            exact nodup_append_left_of_assoc _ _ _ hnd
          have e1 := hone val (mkKey ek key) result h1 hnd'
          rw [show buildFields [] result ek ((key, val) :: rest) =
            buildFields [] (buildOne [] result (mkKey ek key) val) ek rest from rfl, e1]
          rw [ih2 ek (result ++ leavesOne (mkKey ek key) val) h2
            (by simpa [List.append_assoc] using hnd)]
          simp
    · intro xs
      induction xs with
      | nil =>
          intro pre i result _ _
          rw [show buildItems [] result pre i [] = result from rfl,
            show leavesItems pre i ([] : List PyVal) = [] from rfl]
          simp
      | cons x rest ih2 =>
          intro pre i result hs hnd
          have hsz : sizeItems (x :: rest) = sizeOne x + sizeItems rest := rfl
          have h1 : sizeOne x ≤ n := by
            have := sizeOne_pos' x
            omega
          have h2 : sizeItems rest ≤ n := by
            have := sizeOne_pos' x
            omega
          rw [show leavesItems pre i (x :: rest) =
            leavesOne (pre ++ "[" ++ toString i ++ "]") x ++ leavesItems pre (i + 1) rest
            from rfl] at hnd ⊢
          have hnd' : (dictKeys (result ++ leavesOne (pre ++ "[" ++ toString i ++ "]") x)).Nodup := by
            rw [dictKeys_append]
            rw [dictKeys_append, dictKeys_append] at hnd
            exact nodup_append_left_of_assoc _ _ _ hnd
          have e1 := hone x (pre ++ "[" ++ toString i ++ "]") result h1 hnd'
          rw [show buildItems [] result pre i (x :: rest) =
            buildItems [] (buildOne [] result (pre ++ "[" ++ toString i ++ "]") x) pre (i + 1) rest
            from rfl, e1]
          rw [ih2 pre (i + 1) (result ++ leavesOne (pre ++ "[" ++ toString i ++ "]") x) h2
            (by simpa [List.append_assoc] using hnd)]
          simp

/-- C1: for every nested argument dict whose non-null scalar leaves have
pairwise distinct bracket key-paths, the encoder returns exactly the list of
(key-path, value) pairs of those leaves — one entry per non-null scalar leaf,
map entries keyed `prefix[key]`, sequence elements keyed `prefix[index]` with
zero-based indices, null leaves omitted and empty containers contributing
nothing — and encoding `a ↦ (b ↦ 1, c ↦ [2, 3])` yields exactly
`a[b] ↦ 1, a[c][0] ↦ 2, a[c][1] ↦ 3`.  (The distinctness proviso is the
amendment: see the counterexample for colliding key-paths.) -/
theorem c1_encoder_flattens :
    (∀ data : Dict, (dictKeys (leavesFields none data)).Nodup →
      encodeData data = leavesFields none data)
    ∧ encodeData [("a", .vDict [("b", .vInt 1), ("c", .vList [.vInt 2, .vInt 3])])] =
      [("a[b]", .vInt 1), ("a[c][0]", .vInt 2), ("a[c][1]", .vInt 3)] := by
  constructor
  · intro data h
    have := (build_eq_leaves (sizeFields data)).2.1 data none [] (le_refl _) (by simpa using h)
    simpa [encodeData] using this
  · rfl

/-- C1 witness: a concrete input exercising null omission and an empty
container, on which the encoder equals the leaf list. -/
theorem c1_encoder_flattens_witness :
    (dictKeys (leavesFields none
      [("x", .vList [.vNone, .vInt 7]), ("y", .vDict []), ("z", .vStr "s")])).Nodup
    ∧ encodeData [("x", .vList [.vNone, .vInt 7]), ("y", .vDict []), ("z", .vStr "s")] =
      leavesFields none [("x", .vList [.vNone, .vInt 7]), ("y", .vDict []), ("z", .vStr "s")] :=
  ⟨by decide, c1_encoder_flattens.1 _ (by decide)⟩

/-- C1 counterexample: two distinct non-null scalar leaves can share the
bracket key-path (key `a[0]` next to element 0 of list `a`), in which case the
encoder emits a single entry for the two leaves, refuting the claim for
arbitrary nested values. -/
theorem c1_counterexample :
    (encodeData [("a[0]", .vInt 5), ("a", .vList [.vInt 7])]).length = 1
    ∧ (leavesFields none [("a[0]", .vInt 5), ("a", .vList [.vInt 7])]).length = 2
    ∧ (encodeData [("a[0]", .vInt 5), ("a", .vList [.vInt 7])]).length ≠
      (leavesFields none [("a[0]", .vInt 5), ("a", .vList [.vInt 7])]).length := by
  refine ⟨rfl, rfl, by decide⟩

theorem sha1Chunks_bounds (fuel : Nat) :
    ∀ (st : Nat × Nat × Nat × Nat × Nat) (bytes : List Nat),
      st.1 < 2 ^ 32 → st.2.1 < 2 ^ 32 → st.2.2.1 < 2 ^ 32 → st.2.2.2.1 < 2 ^ 32 →
      st.2.2.2.2 < 2 ^ 32 →
      (sha1Chunks fuel st bytes).1 < 2 ^ 32 ∧ (sha1Chunks fuel st bytes).2.1 < 2 ^ 32 ∧
      (sha1Chunks fuel st bytes).2.2.1 < 2 ^ 32 ∧ (sha1Chunks fuel st bytes).2.2.2.1 < 2 ^ 32 ∧
      (sha1Chunks fuel st bytes).2.2.2.2 < 2 ^ 32 := by
  induction fuel with
  | zero =>
      intro st bytes h0 h1 h2 h3 h4
      cases bytes with
      | nil => exact ⟨h0, h1, h2, h3, h4⟩
      | cons x xs => exact ⟨h0, h1, h2, h3, h4⟩
  | succ m ih =>
      intro st bytes h0 h1 h2 h3 h4
      cases bytes with
      | nil => exact ⟨h0, h1, h2, h3, h4⟩
      | cons x xs =>
          rw [show sha1Chunks (m + 1) st (x :: xs) =
            sha1Chunks m
              ((st.1 + (sha1Rounds 0 (sha1Extend 64 (toWords ((x :: xs).take 64))) st).1) % 2 ^ 32,
               (st.2.1 + (sha1Rounds 0 (sha1Extend 64 (toWords ((x :: xs).take 64))) st).2.1) % 2 ^ 32,
               (st.2.2.1 + (sha1Rounds 0 (sha1Extend 64 (toWords ((x :: xs).take 64))) st).2.2.1) % 2 ^ 32,
               (st.2.2.2.1 + (sha1Rounds 0 (sha1Extend 64 (toWords ((x :: xs).take 64))) st).2.2.2.1) % 2 ^ 32,
               (st.2.2.2.2 + (sha1Rounds 0 (sha1Extend 64 (toWords ((x :: xs).take 64))) st).2.2.2.2) % 2 ^ 32)
              ((x :: xs).drop 64) from rfl]
          exact ih _ _ (Nat.mod_lt _ (by norm_num)) (Nat.mod_lt _ (by norm_num))
            (Nat.mod_lt _ (by norm_num)) (Nat.mod_lt _ (by norm_num)) (Nat.mod_lt _ (by norm_num))

theorem sha1Words_bounds (msg : List Nat) :
    (sha1Words msg).1 < 2 ^ 32 ∧ (sha1Words msg).2.1 < 2 ^ 32 ∧
    (sha1Words msg).2.2.1 < 2 ^ 32 ∧ (sha1Words msg).2.2.2.1 < 2 ^ 32 ∧
    (sha1Words msg).2.2.2.2 < 2 ^ 32 := by
  have h := sha1Chunks_bounds (sha1Pad msg).length
    (1732584193, 4023233417, 2562383102, 271733878, 3285377520) (sha1Pad msg)
    (by norm_num) (by norm_num) (by norm_num) (by norm_num) (by norm_num)
  rw [show sha1Words msg = sha1Chunks (sha1Pad msg).length
    (1732584193, 4023233417, 2562383102, 271733878, 3285377520) (sha1Pad msg) from rfl]
  exact h

theorem hexVal_hexDigitChar (m : Nat) (h : m < 16) : hexVal (hexDigitChar m) = m := by
  interval_cases m <;> rfl

theorem hexFold_wordHex (a w : Nat) (h : w < 2 ^ 32) :
    (wordHex w).data.foldl (fun x c => x * 16 + hexVal c) a = a * 2 ^ 32 + w := by
  have p : (0 : Nat) < 16 := by norm_num
  rw [show (wordHex w).data = [hexDigitChar (w / 16 ^ 7 % 16), hexDigitChar (w / 16 ^ 6 % 16),
    hexDigitChar (w / 16 ^ 5 % 16), hexDigitChar (w / 16 ^ 4 % 16), hexDigitChar (w / 16 ^ 3 % 16),
    hexDigitChar (w / 16 ^ 2 % 16), hexDigitChar (w / 16 % 16), hexDigitChar (w % 16)] from rfl]
  simp only [List.foldl]
  rw [hexVal_hexDigitChar _ (Nat.mod_lt _ p), hexVal_hexDigitChar _ (Nat.mod_lt _ p),
    hexVal_hexDigitChar _ (Nat.mod_lt _ p), hexVal_hexDigitChar _ (Nat.mod_lt _ p),
    hexVal_hexDigitChar _ (Nat.mod_lt _ p), hexVal_hexDigitChar _ (Nat.mod_lt _ p),
    hexVal_hexDigitChar _ (Nat.mod_lt _ p), hexVal_hexDigitChar _ (Nat.mod_lt _ p)]
  have e7 : (16 : Nat) ^ 7 = 268435456 := by norm_num
  have e6 : (16 : Nat) ^ 6 = 16777216 := by norm_num
  have e5 : (16 : Nat) ^ 5 = 1048576 := by norm_num
  have e4 : (16 : Nat) ^ 4 = 65536 := by norm_num
  have e3 : (16 : Nat) ^ 3 = 4096 := by norm_num
  have e2 : (16 : Nat) ^ 2 = 256 := by norm_num
  have e32 : (2 : Nat) ^ 32 = 4294967296 := by norm_num
  rw [e7, e6, e5, e4, e3, e2, e32]
  rw [e32] at h
  omega

theorem natOfHex_sha1Hexdigest (msg : List Nat) :
    natOfHexStr (sha1Hexdigest msg) = sha1Nat msg := by
  rcases hW : sha1Words msg with ⟨h0, h1, h2, h3, h4⟩
  have hb := sha1Words_bounds msg
  rw [hW] at hb
  obtain ⟨b0, b1, b2, b3, b4⟩ := hb
  rw [show sha1Hexdigest msg =
    (match sha1Words msg with
     | (g0, g1, g2, g3, g4) => wordHex g0 ++ wordHex g1 ++ wordHex g2 ++ wordHex g3 ++ wordHex g4)
    from rfl, hW]
  rw [show sha1Nat msg = (match sha1Words msg with
     | (g0, g1, g2, g3, g4) => (((g0 * 2 ^ 32 + g1) * 2 ^ 32 + g2) * 2 ^ 32 + g3) * 2 ^ 32 + g4)
    from rfl, hW]
  simp only [natOfHexStr]
  rw [show (wordHex h0 ++ wordHex h1 ++ wordHex h2 ++ wordHex h3 ++ wordHex h4).data =
    (((wordHex h0).data ++ (wordHex h1).data) ++ (wordHex h2).data ++ (wordHex h3).data) ++
    (wordHex h4).data from by simp]
  rw [List.foldl_append, List.foldl_append, List.foldl_append, List.foldl_append]
  rw [hexFold_wordHex _ _ b0, hexFold_wordHex _ _ b1, hexFold_wordHex _ _ b2,
    hexFold_wordHex _ _ b3, hexFold_wordHex _ _ b4]
  ring

/-- C4: for every value, the fingerprint equals the SHA-1 digest of the UTF-8
bytes of the depth-first concatenation of the string forms of the reachable
scalars (map keys and list positions contributing nothing, as the two
concatenation conjuncts state), interpreted as a big-endian unsigned integer
and reduced modulo 10^10, and is therefore always in [0, 10^10). -/
theorem c4_fingerprint_spec :
    ∀ obj : PyVal,
      getUniqueHash obj = sha1Nat (utf8Bytes (getStringRepr obj)) % 10 ^ 10
      ∧ getUniqueHash obj < 10 ^ 10
      ∧ (∀ k v es, getStringRepr (.vDict ((k, v) :: es)) =
          getStringRepr v ++ getStringRepr (.vDict es))
      ∧ (∀ x xs, getStringRepr (.vList (x :: xs)) =
          getStringRepr x ++ getStringRepr (.vList xs)) := by
  intro obj
  refine ⟨?_, ?_, ?_, ?_⟩
  · rw [show getUniqueHash obj =
      natOfHexStr (sha1Hexdigest (utf8Bytes (getStringRepr obj))) % 10 ^ 10 from rfl,
      natOfHex_sha1Hexdigest]
  · exact Nat.mod_lt _ (by norm_num)
  · intro k v es
    rfl
  · intro x xs
    rfl

/-- C5 counterexample: two dicts equal as key-to-value mappings (same value at
each key) but with entries in the opposite order receive different
fingerprints, because the concatenation of values is order-sensitive. -/
theorem c5_counterexample :
    dictGet [("a", PyVal.vStr "x"), ("b", PyVal.vStr "y")] "a" =
      dictGet [("b", PyVal.vStr "y"), ("a", PyVal.vStr "x")] "a"
    ∧ dictGet [("a", PyVal.vStr "x"), ("b", PyVal.vStr "y")] "b" =
      dictGet [("b", PyVal.vStr "y"), ("a", PyVal.vStr "x")] "b"
    ∧ getUniqueHash (.vDict [("a", .vStr "x"), ("b", .vStr "y")]) = 4974733295
    ∧ getUniqueHash (.vDict [("b", .vStr "y"), ("a", .vStr "x")]) = 8013636583
    ∧ getUniqueHash (.vDict [("a", .vStr "x"), ("b", .vStr "y")]) ≠
      getUniqueHash (.vDict [("b", .vStr "y"), ("a", .vStr "x")]) := by
  refine ⟨rfl, rfl, rfl, rfl, by decide⟩

/-- C5 amended: the fingerprint is determined by the depth-first concatenation
of scalar string forms — any two values with equal concatenations (in
particular identical values) receive the same fingerprint; reordering map
entries changes the concatenation and in general the fingerprint. -/
theorem c5_hash_determined_by_repr (a b : PyVal)
    (h : getStringRepr a = getStringRepr b) : getUniqueHash a = getUniqueHash b := by
  rw [show getUniqueHash a =
    natOfHexStr (sha1Hexdigest (utf8Bytes (getStringRepr a))) % 10 ^ 10 from rfl,
    show getUniqueHash b =
    natOfHexStr (sha1Hexdigest (utf8Bytes (getStringRepr b))) % 10 ^ 10 from rfl, h]

/-- C5 witness: two structurally different values with the same scalar
concatenation, to which the amended theorem applies. -/
theorem c5_hash_determined_by_repr_witness :
    getStringRepr (PyVal.vList [.vStr "ab"]) = getStringRepr (PyVal.vList [.vStr "a", .vStr "b"])
    ∧ getUniqueHash (PyVal.vList [.vStr "ab"]) = getUniqueHash (PyVal.vList [.vStr "a", .vStr "b"]) :=
  ⟨rfl, c5_hash_determined_by_repr _ _ rfl⟩

/-- C2 (code bug witness): accessing an unknown operation name on the client
does not raise — `__getattr__` falls off the end of its body and the attribute
access evaluates to `None` (so a call then fails with `TypeError`, not an
`AttributeError`/UnknownOperation condition), while allow-listed names receive
the bound remote-call closure. -/
theorem c2_unknown_attr_returns_none :
    clientGetattr "send_mega_email" = AttrLookup.noneValue
    ∧ "send_mega_email" ∉ apiMethods
    ∧ clientGetattr "create_list" = AttrLookup.bound "create_list" := by
  refine ⟨by decide, by decide, by decide⟩

/-- C9 (code bug witness): `Client.__init__` binds `self._config` to the
class-level `DEFAULT_CONF` dict itself, so all instances share one mutable
configuration object: after a first client is constructed with api key `key1`,
constructing a second client with api key `key2` overwrites the configuration
the first client observes. -/
theorem c9_config_shared_between_instances :
    dictGet (clientConfig (clientInit ⟨defaultConfInit⟩ (.vStr "key1") (.vStr "p1") [])) "api_key"
      = some (.vStr "key1")
    ∧ dictGet (clientConfig (clientInit (clientInit ⟨defaultConfInit⟩ (.vStr "key1") (.vStr "p1") [])
        (.vStr "key2") (.vStr "p2") [])) "api_key" = some (.vStr "key2")
    ∧ dictGet (clientConfig (clientInit (clientInit ⟨defaultConfInit⟩ (.vStr "key1") (.vStr "p1") [])
        (.vStr "key2") (.vStr "p2") [])) "api_key" ≠ some (.vStr "key1") := by
  refine ⟨rfl, rfl, ?_⟩
  rw [show dictGet (clientConfig (clientInit (clientInit ⟨defaultConfInit⟩ (.vStr "key1")
    (.vStr "p1") []) (.vStr "key2") (.vStr "p2") [])) "api_key" = some (.vStr "key2") from rfl]
  simp

/-- C3 counterexample: with every earlier step succeeding, a failed final
create-campaign response makes the single-campaign workflow raise (an error
result, produced by the `after_request` validation `_api_request` runs on
every call), and even a successful final response returns the integer campaign
id, not a boolean — refuting the claim that step 5 reports a boolean instead
of raising for every response. -/
theorem c3_counterexample :
    (createEmailCampaign wfConf id wfRecipients wfEmailData none
      ⟨wfScriptPrefix ++ [⟨500, []⟩], []⟩).1 =
      .error (requestErrorMsg 500 (requestUrl wfConf "create_campaign") "HTTP error")
    ∧ (createEmailCampaign wfConf id wfRecipients wfEmailData none
      ⟨wfScriptNoList, []⟩).1 =
      .ok (.vInt 777, dictInsert wfEmailData "list_id" (.vInt 101), [("message_id", .vInt 55)]) :=
  ⟨rfl, rfl⟩

/-- C3 amended: the final create-campaign call is validated exactly like every
other step — any request whose response fails `_validate_response` raises with
that validation message (first conjunct, for every call the client makes,
hence in particular for step 5) — and a successful run returns the integer
campaign id extracted from the final response, not a boolean (second
conjunct). -/
theorem c3_amended :
    (∀ (c : Conf) (method : String) (kwargs : Dict) (s : ApiState) (r : Response)
        (rest : List Response) (msg : String), s.pending = r :: rest →
        validateResponse c method r = some msg →
        (apiRequest c method kwargs s).1 = .error msg)
    ∧ (createEmailCampaign wfConf id wfRecipients wfEmailData none ⟨wfScriptNoList, []⟩).1 =
      .ok (.vInt 777, dictInsert wfEmailData "list_id" (.vInt 101), [("message_id", .vInt 55)]) := by
  constructor
  · intro c method kwargs s r rest msg hp hv
    obtain ⟨pending, calls⟩ := s
    change pending = r :: rest at hp
    subst hp
    simp [apiRequest, hv]
  · rfl

/-- C3 witness: the amended theorem applied to a concrete failed
create-campaign call. -/
theorem c3_amended_witness :
    validateResponse wfConf "create_campaign" ⟨500, []⟩ =
      some (requestErrorMsg 500 (requestUrl wfConf "create_campaign") "HTTP error")
    ∧ (apiRequest wfConf "create_campaign" [] ⟨[⟨500, []⟩], []⟩).1 =
      .error (requestErrorMsg 500 (requestUrl wfConf "create_campaign") "HTTP error") :=
  ⟨rfl, c3_amended.1 wfConf "create_campaign" [] ⟨[⟨500, []⟩], []⟩ ⟨500, []⟩ [] _ rfl rfl⟩

/-- C6 counterexample: in a run where the list does not pre-exist, the first
remote call of the workflow is the lookup `get_lists` and the creation
`create_list` only comes second — refuting the claimed create-first /
lookup-only-on-already-exists order of step 1. -/
theorem c6_counterexample :
    ((createEmailCampaign wfConf id wfRecipients wfEmailData none
      ⟨wfScriptNoList, []⟩).2.calls.map Prod.fst) =
      ["get_lists", "create_list", "get_fields", "import_contacts",
       "create_email_message", "create_campaign"]
    ∧ "get_lists" ≠ "create_list" :=
  ⟨rfl, by decide⟩

/-- C6 amended: step 1 derives the title `mailing_list_{fingerprint}` and
resolves the list lookup-first: `find_list_id` always issues exactly one
`get_lists` call (first conjunct); when the scan finds the title, the workflow
proceeds without any `create_list` call and uses the found id (conjuncts 2-3);
when the scan finds nothing, the second call is `create_list` with the
fingerprint-derived title and the id is taken from the create response
(conjuncts 4-5).  There is no assertion: a missing id in the create response
raises a KeyError-style error instead. -/
theorem c6_amended :
    (∀ (c : Conf) (title : String) (s : ApiState) (r : Response) (rest : List Response),
        s.pending = r :: rest →
        (findListId c title s).2.calls =
          s.calls ++ [("get_lists", buildRequestData (defaultRequestData c) [])])
    ∧ ((createEmailCampaign wfConf id wfRecipients wfEmailData none
        ⟨wfScriptListExists, []⟩).2.calls.map Prod.fst =
      ["get_lists", "get_fields", "import_contacts", "create_email_message", "create_campaign"])
    ∧ (createEmailCampaign wfConf id wfRecipients wfEmailData none
        ⟨wfScriptListExists, []⟩).1 =
      .ok (.vInt 888, dictInsert wfEmailData "list_id" (.vInt 202), [("message_id", .vInt 55)])
    ∧ ((createEmailCampaign wfConf id wfRecipients wfEmailData none
        ⟨wfScriptNoList, []⟩).2.calls.get? 1 =
      some ("create_list", buildRequestData (defaultRequestData wfConf)
        [("title", .vStr ("mailing_list_" ++ toString (getUniqueHash (.vList wfRecipients))))]))
    ∧ (createEmailCampaign wfConf id wfRecipients wfEmailData none ⟨wfScriptNoList, []⟩).1 =
      .ok (.vInt 777, dictInsert wfEmailData "list_id" (.vInt 101), [("message_id", .vInt 55)]) := by
  refine ⟨?_, rfl, rfl, rfl, rfl⟩
  intro c title s r rest hp
  obtain ⟨pending, calls⟩ := s
  change pending = r :: rest at hp
  subst hp
  simp only [findListId, apiRequest]
  cases hv : validateResponse c "get_lists" r with
  | some msg => rfl
  | none =>
      cases hj : jsonAt r "result" with
      | error e => simp [hj]
      | ok v =>
          cases hi : pyIterate v with
          | error e => simp [hj, hi]
          | ok items => simp [hj, hi]

/-- C6 witness: the general `find_list_id` conjunct applied to a concrete
state. -/
theorem c6_amended_witness :
    (findListId wfConf "t" ⟨[respOk (.vList [])], []⟩).2.calls =
      ([] : List (String × Dict)) ++ [("get_lists", buildRequestData (defaultRequestData wfConf) [])] :=
  c6_amended.1 wfConf "t" ⟨[respOk (.vList [])], []⟩ (respOk (.vList [])) [] rfl

/-- C7 counterexample: the missing-fields message joins the CPython set
difference in its iteration order, which is not sorted — under the identity
enumeration (one possible set order) the message for html data missing
`sender_name` and `sender_email` lists them in required-declaration order,
`sender_name, sender_email`, which differs from the sorted
`sender_email, sender_name` (the two last conjuncts exhibit the
byte-lexicographic order of the two names). -/
theorem c7_counterexample :
    validateEmailData id [("body", .vStr "b"), ("subject", .vStr "s")] =
      some (emailMissingFieldsMsg "sender_name, sender_email")
    ∧ emailMissingFieldsMsg "sender_name, sender_email" ≠
      emailMissingFieldsMsg "sender_email, sender_name"
    ∧ strLeB "sender_name" "sender_email" = false
    ∧ strLeB "sender_email" "sender_name" = true := by
  refine ⟨rfl, by decide, by decide, by decide⟩

/-- C7 amended: for any enumeration order of the set difference (any
permutation — modelling CPython's unspecified set iteration order) and any
email data of the html variant (no template key, a `text_body`/`body` key)
with at least one required field missing, the validation raises a message
naming exactly the missing required fields, comma-joined, in that
(unspecified, not necessarily sorted) order. -/
theorem c7_amended (setOrder : List String → List String)
    (hperm : ∀ l : List String, (setOrder l).Perm l) (data : Dict)
    (hnt : (["template_id", "system_template_id"].any
      (fun e => (dictKeys data).contains e)) = false)
    (hh : (["text_body", "body"].any (fun e => (dictKeys data).contains e)) = true)
    (hm : (requiredEmailArgs "html").filter (fun f => !(dictKeys data).contains f) ≠ []) :
    ∃ ms : List String,
      ms.Perm ((requiredEmailArgs "html").filter (fun f => !(dictKeys data).contains f))
      ∧ validateEmailData setOrder data =
          some (emailMissingFieldsMsg (joinSep ", " ms)) := by
  refine ⟨setOrder ((requiredEmailArgs "html").filter (fun f => !(dictKeys data).contains f)),
    hperm _, ?_⟩
  have hall : ((requiredEmailArgs "html").all (fun f => (dictKeys data).contains f)) = false := by
    cases hc : (requiredEmailArgs "html").all (fun f => (dictKeys data).contains f) with
    | false => rfl
    | true =>
        exfalso
        apply hm
        apply List.filter_eq_nil_iff.mpr
        intro a ha
        have := List.all_eq_true.mp hc a ha
        simpa using this
  have hnt2 : ¬("template_id" ∈ dictKeys data ∨ "system_template_id" ∈ dictKeys data) := by
    simpa using hnt
  have hh2 : ("text_body" ∈ dictKeys data ∨ "body" ∈ dictKeys data) := by
    simpa using hh
  have hall2 : ¬(∀ x ∈ requiredEmailArgs "html", x ∈ dictKeys data) := by
    simpa using hall
  simp [validateEmailData, validateRequired, hnt2, hh2, hall2]

/-- C7 witness: the amended theorem applied to html email data missing only
`subject`, whose error message names exactly `subject`. -/
theorem c7_amended_witness :
    (∃ ms : List String,
      ms.Perm ((requiredEmailArgs "html").filter
        (fun f => !(dictKeys wfHtmlMissingSubject).contains f))
      ∧ validateEmailData id wfHtmlMissingSubject =
          some (emailMissingFieldsMsg (joinSep ", " ms)))
    ∧ validateEmailData id wfHtmlMissingSubject = some (emailMissingFieldsMsg "subject") :=
  ⟨c7_amended id (fun l => List.Perm.refl l) wfHtmlMissingSubject (by decide) (by decide)
    (by decide), rfl⟩

/-- C8 (code bug witness): the default-parameter merging of
`create_many_email_campaigns` iterates `default_email_data.keys()` and tuple
unpacks each KEY string (`for key, val in ...keys()`), so any shared default
whose key is not exactly two characters long raises `ValueError` before any
campaign is attempted and outside the index-annotating `try` (conjuncts 1-2);
with no shared defaults, the loop does run campaigns in order, annotates a
failing item's error with its index, aborts later items while keeping earlier
items' remote calls (conjuncts 3-4), and collects campaign ids on success
(conjunct 5). -/
theorem c8_defaults_iteration_bug :
    (createManyEmailCampaigns wfConf id [wfGoodItem] wfRecipients
      (some [("sender_name", .vStr "X")]) none ⟨wfScriptNoList, []⟩).1 =
      .error "ValueError: too many values to unpack (expected 2)"
    ∧ (createManyEmailCampaigns wfConf id [wfGoodItem] wfRecipients
      (some [("sender_name", .vStr "X")]) none ⟨wfScriptNoList, []⟩).2.calls = []
    ∧ (createManyEmailCampaigns wfConf id [wfGoodItem, wfBadItem, wfGoodItem] wfRecipients
        none none ⟨wfScriptNoList, []⟩).1 =
      .error (emailDataErrorMsg ++ ". Campaign number: 1")
    ∧ ((createManyEmailCampaigns wfConf id [wfGoodItem, wfBadItem, wfGoodItem] wfRecipients
        none none ⟨wfScriptNoList, []⟩).2.calls.map Prod.fst) =
      ["get_lists", "create_list", "get_fields", "import_contacts",
       "create_email_message", "create_campaign"]
    ∧ (createManyEmailCampaigns wfConf id [wfGoodItem] wfRecipients none none
        ⟨wfScriptNoList, []⟩).1 = .ok [.vInt 777] := by
  refine ⟨rfl, rfl, rfl, rfl, rfl⟩

/-- C10: every successful run of the single-campaign workflow finishes with
the caller's `email_data` mutated to carry a `list_id` entry (the model
returns the mutated dicts explicitly), and — when `campaign_data` was
provided — with `campaign_data` mutated to carry a `message_id` entry and to
have a truthy `start_time` value replaced through the start-time
normalization, which (third conjunct) rewrites any datetime `start_time` to
its `YYYY-MM-DD HH:MM` string form. -/
theorem c10_workflow_mutates_arguments (c : Conf) (so : List String → List String)
    (recipients : List PyVal) (email_data : Dict) (cd : Dict) (s : ApiState)
    (cid : PyVal) (email_out cd_out : Dict)
    (h : (createEmailCampaign c so recipients email_data (some cd) s).1 =
      .ok (cid, email_out, cd_out)) :
    (∃ lid, email_out = dictInsert email_data "list_id" lid)
    ∧ (∃ mid, startTimeAdjust (dictInsert cd "message_id" mid) = .ok cd_out)
    ∧ (∀ (d : Dict) (y mo dy hr mi : Nat),
        dictGet d "start_time" = some (.vDT y mo dy hr mi) →
        startTimeAdjust d = .ok (dictInsert d "start_time" (.vStr (strfTime y mo dy hr mi)))) := by
  have key : (∃ lid, email_out = dictInsert email_data "list_id" lid)
      ∧ (∃ mid, startTimeAdjust (dictInsert cd "message_id" mid) = .ok cd_out) := by
    rcases hS : createEmailCampaign c so recipients email_data (some cd) s with ⟨res, sOut⟩
    rw [hS] at h
    simp at h
    subst h
    unfold createEmailCampaign at hS
    repeat' split at hS
    all_goals (try simp at hS)
    rename_i x3 mid heqMID x2 cd1 heqSTA x1 r5 s5 heqCC x0 vcid heqCID
    obtain ⟨⟨hcid, hemail, hcd⟩, hstate⟩ := hS
    exact ⟨⟨_, hemail.symm⟩, ⟨mid, by rw [← hcd]; exact heqSTA⟩⟩
  refine ⟨key.1, key.2, ?_⟩
  intro d y mo dy hr mi hst
  simp [startTimeAdjust, hst, pyTruthy]

/-- C10 witness: a concrete successful run with a provided campaign_data
carrying a datetime start_time, to which the theorem applies. -/
theorem c10_workflow_mutates_arguments_witness :
    (createEmailCampaign wfConf id wfRecipients wfEmailData
      (some [("start_time", .vDT 2030 1 2 3 4)])
      ⟨wfScriptPrefix ++ [respOk (.vDict [("campaign_id", .vInt 999)])], []⟩).1 =
      .ok (.vInt 999, dictInsert wfEmailData "list_id" (.vInt 101),
        [("start_time", .vStr "2030-01-02 03:04"), ("message_id", .vInt 55)])
    ∧ (∃ lid, dictInsert wfEmailData "list_id" (.vInt 101) =
        dictInsert wfEmailData "list_id" lid)
    ∧ (∃ mid, startTimeAdjust (dictInsert [("start_time", PyVal.vDT 2030 1 2 3 4)]
        "message_id" mid) =
        .ok [("start_time", PyVal.vStr "2030-01-02 03:04"), ("message_id", PyVal.vInt 55)]) := by
  have happ := c10_workflow_mutates_arguments wfConf id wfRecipients wfEmailData
    [("start_time", .vDT 2030 1 2 3 4)]
    ⟨wfScriptPrefix ++ [respOk (.vDict [("campaign_id", .vInt 999)])], []⟩
    (.vInt 999) (dictInsert wfEmailData "list_id" (.vInt 101))
    [("start_time", .vStr "2030-01-02 03:04"), ("message_id", .vInt 55)] rfl
  exact ⟨rfl, happ.1, happ.2.1⟩
